import Mathlib

/-!
Shallow embedding of the rocket-league-ai-coach data pipeline.

Source files embedded here:
  * src/src/analytics.py   — class PlayerAnalytics (pure computations over a
    tabular dataset; a pandas DataFrame row becomes a `Row`, numeric columns
    become rationals, the boolean `won` column becomes `Bool`, and the
    `playlist` column, which may be null, becomes `Option String`);
  * src/src/data_collection.py — BallchasingAPI.get_player_stats_from_replay
    (extraction of one player record from a nested replay payload);
  * src/src/database.py    — RocketLeagueDB.add_player / add_match_history
    (SQLite state becomes an explicit `DB` structure; the schema constraint
    `replay_id TEXT UNIQUE` and the INSERT OR IGNORE statements are modelled
    exactly, including the SQLite rule that NULL values never collide on a
    UNIQUE column).

Python dictionaries returned by the analytics functions become `Option`-typed
structures: `none` is the empty dict `{}` that every function returns on an
empty dataset, `some s` a fully populated dict. Timestamps (`last_updated`,
set from datetime.now()) are not modelled; no claim refers to them.
-/

namespace RLCoach

/-- One row of the match-history dataset handed to PlayerAnalytics
(analytics.py).  Columns are the ones the analytics functions read. -/
structure Row where
  date : String
  playlist : Option String
  won : Bool
  goals : ℚ
  assists : ℚ
  saves : ℚ
  shots : ℚ
  score : ℚ
  shooting_percentage : ℚ
deriving DecidableEq, Repr

/-- Arithmetic mean, as pandas Series.mean on a nonempty column.  On the
empty list rational division by zero yields 0 (the code only reaches this
case where pandas would produce NaN values, never an exception). -/
def mean (l : List ℚ) : ℚ := l.sum / l.length

/-- Maximum of a column, as pandas Series.max on a nonempty column. -/
def colMax : List ℚ → ℚ
  | [] => 0
  | x :: xs => xs.foldl max x

/-- Result dictionary of get_summary_stats (analytics.py lines 31-52). -/
structure Summary where
  total_games : Nat
  wins : Nat
  losses : Nat
  win_rate : ℚ
  avg_goals : ℚ
  avg_assists : ℚ
  avg_saves : ℚ
  avg_shots : ℚ
  avg_score : ℚ
  avg_shooting_pct : ℚ
  best_goals : ℚ
  best_assists : ℚ
  best_saves : ℚ
  best_score : ℚ
deriving DecidableEq, Repr

/-- PlayerAnalytics.get_summary_stats: empty dict on an empty dataset,
otherwise counts, win rate, column means and column maxima.  `wins` is
`df["won"].sum()` and `losses` is `(~df["won"]).sum()` on the boolean
column. -/
def get_summary_stats (df : List Row) : Option Summary :=
  if df.length = 0 then none else
  some {
    total_games := df.length
    wins := df.countP (fun r => r.won)
    losses := df.countP (fun r => !r.won)
    win_rate := (df.countP (fun r => r.won) : ℚ) / df.length * 100
    avg_goals := mean (df.map (·.goals))
    avg_assists := mean (df.map (·.assists))
    avg_saves := mean (df.map (·.saves))
    avg_shots := mean (df.map (·.shots))
    avg_score := mean (df.map (·.score))
    avg_shooting_pct := mean (df.map (·.shooting_percentage))
    best_goals := colMax (df.map (·.goals))
    best_assists := colMax (df.map (·.assists))
    best_saves := colMax (df.map (·.saves))
    best_score := colMax (df.map (·.score)) }

/-- Order of first appearance of the distinct values of a column, as pandas
Series.unique (analytics.py line 66 iterates over it). -/
def pdUnique : List (Option String) → List (Option String)
  | [] => []
  | x :: xs => x :: pdUnique (xs.filter (fun y => y ≠ x))
termination_by l => l.length
decreasing_by
  simp only [List.length_cons]
  exact Nat.lt_succ_of_le (List.length_filter_le _ _)

/-- Per-playlist entry of get_stats_by_playlist (analytics.py lines 72-79). -/
structure PlaylistStats where
  games : Nat
  win_rate : ℚ
  avg_goals : ℚ
  avg_assists : ℚ
  avg_saves : ℚ
  avg_score : ℚ
deriving DecidableEq, Repr

/-- Stats over one slice of the dataset, shared shape of the per-playlist
entries and of calc_stats inside compare_performance. -/
def sliceStats (s : List Row) : PlaylistStats :=
  { games := s.length
    win_rate := (s.countP (fun r => r.won) : ℚ) / s.length * 100
    avg_goals := mean (s.map (·.goals))
    avg_assists := mean (s.map (·.assists))
    avg_saves := mean (s.map (·.saves))
    avg_score := mean (s.map (·.score)) }

/-- PlayerAnalytics.get_stats_by_playlist: empty dict on an empty dataset,
otherwise one entry per distinct non-null playlist value, null playlist
values skipped entirely (pd.isna check, analytics.py line 67). -/
def get_stats_by_playlist (df : List Row) : List (String × PlaylistStats) :=
  if df.length = 0 then [] else
  (pdUnique (df.map (·.playlist))).filterMap (fun pl =>
    match pl with
    | none => none
    | some name => some (name, sliceStats (df.filter (fun r => r.playlist = some name))))

/-- Code-point lexicographic strictly-below test on character sequences:
the comparison Python applies when sort_values orders the date strings. -/
def strLtB : List Char → List Char → Bool
  | [], [] => false
  | [], _ :: _ => true
  | _ :: _, [] => false
  | x :: xs, y :: ys =>
    if x < y then true else if y < x then false else strLtB xs ys

/-- Comparison used by sort_values("date", ascending=True): row a sorts no
later than row b when the date of b is not strictly below the date of a. -/
def dateLe (a b : Row) : Prop :=
  strLtB b.date.data a.date.data = false

instance : DecidableRel dateLe := fun a b =>
  inferInstanceAs (Decidable (strLtB b.date.data a.date.data = false))

/-- strLtB is asymmetric. -/
theorem strLtB_asymm : ∀ (a b : List Char),
    strLtB a b = true → strLtB b a = false
  | [], [], h => by simp [strLtB] at h
  | [], _ :: _, _ => rfl
  | _ :: _, [], h => by simp [strLtB] at h
  | x :: xs, y :: ys, h => by
    simp only [strLtB] at h ⊢
    by_cases hxy : x < y
    · rw [if_neg (asymm hxy), if_pos hxy]
    · rw [if_neg hxy] at h
      by_cases hyx : y < x
      · rw [if_pos hyx] at h
        exact absurd h (by simp)
      · rw [if_neg hyx] at h
        rw [if_neg hyx, if_neg hxy]
        exact strLtB_asymm xs ys h

/-- The negation of strLtB is transitive. -/
theorem strLtB_le_trans : ∀ (c b a : List Char),
    strLtB b a = false → strLtB c b = false → strLtB c a = false
  | [], b, a, h1, h2 => by
    cases a with
    | nil => rfl
    | cons x xs =>
      cases b with
      | nil => simp [strLtB] at h1
      | cons y ys => simp [strLtB] at h2
  | z :: zs, b, a, h1, h2 => by
    cases a with
    | nil => rfl
    | cons x xs =>
      cases b with
      | nil => simp [strLtB] at h1
      | cons y ys =>
        simp only [strLtB] at h1 h2 ⊢
        by_cases hyx : y < x
        · rw [if_pos hyx] at h1
          exact absurd h1 (by simp)
        · rw [if_neg hyx] at h1
          by_cases hzy : z < y
          · rw [if_pos hzy] at h2
            exact absurd h2 (by simp)
          · rw [if_neg hzy] at h2
            have hzx : ¬ z < x := fun hc =>
              absurd (lt_of_lt_of_le hc (not_lt.mp hyx)) hzy
            rw [if_neg hzx]
            by_cases hxz : x < z
            · rw [if_pos hxz]
            · rw [if_neg hxz]
              by_cases hxy : x < y
              · exact absurd (lt_of_lt_of_le hxy (not_lt.mp hzy)) hxz
              · rw [if_neg hxy] at h1
                by_cases hyz : y < z
                · exact absurd (lt_of_le_of_lt (not_lt.mp hyx) hyz) hxz
                · rw [if_neg hyz] at h2
                  exact strLtB_le_trans zs ys xs h1 h2

instance : IsTotal Row dateLe :=
  ⟨fun a b => by
    by_cases h : strLtB b.date.data a.date.data = true
    · exact Or.inr (strLtB_asymm _ _ h)
    · exact Or.inl (by simpa using h)⟩

instance : IsTrans Row dateLe :=
  ⟨fun _ _ _ h1 h2 => strLtB_le_trans _ _ _ h1 h2⟩

/-- df.sort_values("date", ascending=True): the dataset sorted by the date
column. -/
def sortByDate (df : List Row) : List Row := List.insertionSort dateLe df

/-- One row of the table returned by get_performance_trend: the source row
plus the four rolling-mean columns added at analytics.py lines 97-100. -/
structure TrendRow where
  row : Row
  rolling_goals : ℚ
  rolling_assists : ℚ
  rolling_saves : ℚ
  rolling_score : ℚ
deriving DecidableEq, Repr

/-- Series.rolling(window=5, min_periods=1).mean(): entry i is the mean of
the up-to-five values ending at position i. -/
def rollingMean5 (xs : List ℚ) (i : Nat) : ℚ :=
  mean ((xs.take (i + 1)).drop (i + 1 - 5))

/-- PlayerAnalytics.get_performance_trend: empty table on an empty dataset,
otherwise the dataset sorted by date with rolling means (window 5, minimum
1 sample) of goals, assists, saves and score. -/
def get_performance_trend (df : List Row) : List TrendRow :=
  if df.length = 0 then [] else
  let s := sortByDate df
  (List.range s.length).filterMap (fun i =>
    (s.get? i).map (fun r =>
      { row := r
        rolling_goals := rollingMean5 (s.map (·.goals)) i
        rolling_assists := rollingMean5 (s.map (·.assists)) i
        rolling_saves := rollingMean5 (s.map (·.saves)) i
        rolling_score := rollingMean5 (s.map (·.score)) i }))

/-- Result dictionary of get_recent_form (analytics.py lines 120-128). -/
structure RecentForm where
  games : Nat
  wins : Nat
  win_rate : ℚ
  avg_goals : ℚ
  avg_assists : ℚ
  avg_saves : ℚ
  avg_score : ℚ
deriving DecidableEq, Repr

/-- PlayerAnalytics.get_recent_form: empty dict on an empty dataset,
otherwise stats over df.head(num_games), the first num_games rows of the
date-descending dataset. -/
def get_recent_form (df : List Row) (num_games : Nat) : Option RecentForm :=
  if df.length = 0 then none else
  let recent := df.take num_games
  some {
    games := recent.length
    wins := recent.countP (fun r => r.won)
    win_rate := (recent.countP (fun r => r.won) : ℚ) / recent.length * 100
    avg_goals := mean (recent.map (·.goals))
    avg_assists := mean (recent.map (·.assists))
    avg_saves := mean (recent.map (·.saves))
    avg_score := mean (recent.map (·.score)) }

/-- Per-window stats of compare_performance (calc_stats, analytics.py lines
150-157). -/
structure WindowStats where
  win_rate : ℚ
  avg_goals : ℚ
  avg_assists : ℚ
  avg_saves : ℚ
  avg_score : ℚ
deriving DecidableEq, Repr

/-- calc_stats inside compare_performance. -/
def calc_stats (s : List Row) : WindowStats :=
  { win_rate := (s.countP (fun r => r.won) : ℚ) / s.length * 100
    avg_goals := mean (s.map (·.goals))
    avg_assists := mean (s.map (·.assists))
    avg_saves := mean (s.map (·.saves))
    avg_score := mean (s.map (·.score)) }

/-- Result dictionary of compare_performance (analytics.py lines 171-175). -/
structure CompareResult where
  early : WindowStats
  recent : WindowStats
  win_rate_change : ℚ
  goals_change : ℚ
  assists_change : ℚ
  saves_change : ℚ
  score_change : ℚ
deriving DecidableEq, Repr

/-- df.tail(n): the last n rows. -/
def tailN (l : List Row) (n : Nat) : List Row := l.drop (l.length - n)

/-- PlayerAnalytics.compare_performance: empty dict when the dataset has
fewer than first_n + last_n rows; otherwise sorts ascending by date, takes
the head first_n rows as the early window and the tail last_n rows as the
recent window, and reports each window plus signed recent-minus-early
deltas. -/
def compare_performance (df : List Row) (first_n last_n : Nat) : Option CompareResult :=
  if df.length < first_n + last_n then none else
  let s := sortByDate df
  let early_stats := calc_stats (s.take first_n)
  let recent_stats := calc_stats (tailN s last_n)
  some {
    early := early_stats
    recent := recent_stats
    win_rate_change := recent_stats.win_rate - early_stats.win_rate
    goals_change := recent_stats.avg_goals - early_stats.avg_goals
    assists_change := recent_stats.avg_assists - early_stats.avg_assists
    saves_change := recent_stats.avg_saves - early_stats.avg_saves
    score_change := recent_stats.avg_score - early_stats.avg_score }

/-- Result dictionary of get_strengths_and_weaknesses (analytics.py lines
220-224): the two classification lists plus the raw per-metric means. -/
structure SWResult where
  strengths : List String
  weaknesses : List String
  m_goals : ℚ
  m_assists : ℚ
  m_saves : ℚ
  m_shooting_pct : ℚ
deriving DecidableEq, Repr

/-- One if/elif classification step of get_strengths_and_weaknesses: a pair
(contribution to strengths, contribution to weaknesses). -/
def classify (v hi lo : ℚ) (label : String) : List String × List String :=
  if v > hi then ([label], []) else if v < lo then ([], [label]) else ([], [])

/-- The strengths list accumulated by the four if/elif blocks of
get_strengths_and_weaknesses, in source append order. -/
def rawStrengths (g a s sp : ℚ) : List String :=
  (classify g (3/2) (4/5) "Goal scoring").1 ++
  (classify a (6/5) (3/5) "Playmaking").1 ++
  (classify s (3/2) (4/5) "Defense").1 ++
  (classify sp 40 25 "Shot accuracy").1

/-- The weaknesses list accumulated by the four if/elif blocks of
get_strengths_and_weaknesses, in source append order. -/
def rawWeaknesses (g a s sp : ℚ) : List String :=
  (classify g (3/2) (4/5) "Goal scoring").2 ++
  (classify a (6/5) (3/5) "Playmaking").2 ++
  (classify s (3/2) (4/5) "Defense").2 ++
  (classify sp 40 25 "Shot accuracy").2

/-- PlayerAnalytics.get_strengths_and_weaknesses: empty dict on an empty
dataset; otherwise classifies the means of goals, assists, saves and
shooting_percentage against fixed thresholds (strict > for strengths,
strict < for weaknesses, the < test only reached when the > test failed),
substituting the default single-entry lists when no metric qualified. -/
def get_strengths_and_weaknesses (df : List Row) : Option SWResult :=
  if df.length = 0 then none else
  let g := mean (df.map (·.goals))
  let a := mean (df.map (·.assists))
  let s := mean (df.map (·.saves))
  let sp := mean (df.map (·.shooting_percentage))
  let strengths := rawStrengths g a s sp
  let weaknesses := rawWeaknesses g a s sp
  some {
    strengths := if strengths = [] then ["Consistent all-around player"] else strengths
    weaknesses := if weaknesses = [] then ["Well-rounded performance"] else weaknesses
    m_goals := g
    m_assists := a
    m_saves := s
    m_shooting_pct := sp }

/-! Embedding of BallchasingAPI.get_player_stats_from_replay
(data_collection.py lines 80-151).  The nested dict payload becomes explicit
structures with Option fields; a .get(key, default) access becomes
Option.getD. -/

/-- stats.core sub-dictionary of one roster player. -/
structure CoreStats where
  goals : Option ℚ
  assists : Option ℚ
  saves : Option ℚ
  shots : Option ℚ
  score : Option ℚ
  shooting_percentage : Option ℚ
deriving DecidableEq, Repr

/-- stats.boost sub-dictionary of one roster player. -/
structure BoostStats where
  bcpm : Option ℚ
  stolen : Option ℚ
  used_while_supersonic : Option ℚ
deriving DecidableEq, Repr

/-- stats.movement sub-dictionary of one roster player. -/
structure MovementStats where
  avg_speed : Option ℚ
  time_supersonic_speed : Option ℚ
deriving DecidableEq, Repr

/-- stats.positioning sub-dictionary of one roster player. -/
structure PositioningStats where
  time_defensive_third : Option ℚ
  time_neutral_third : Option ℚ
  time_offensive_third : Option ℚ
deriving DecidableEq, Repr

/-- One roster entry of a team section: display name plus nested stats. -/
structure RosterPlayer where
  name : Option String
  core : CoreStats
  boost : BoostStats
  movement : MovementStats
  positioning : PositioningStats
deriving DecidableEq, Repr

/-- One team section of the replay payload: the roster and the aggregate
core goals the payload reports for the whole team. -/
structure TeamData where
  players : List RosterPlayer
  core_goals : Option ℚ
deriving DecidableEq, Repr

/-- Full replay-detail payload, the fields the extractor reads. -/
structure ReplayData where
  id : Option String
  date : Option String
  duration : Option ℚ
  playlist_name : Option String
  blue : TeamData
  orange : TeamData
deriving DecidableEq, Repr

/-- The flattened dict the extractor returns, which is also the dict shape
add_match_history consumes (match.get on each key; a key the extractor
filled with .get(key) and no default may carry None, hence Option). -/
structure MatchData where
  replay_id : Option String
  date : Option String
  duration : Option ℚ
  playlist : Option String
  player_name : Option String
  team : Option String
  won : Option Bool
  goals : Option ℚ
  assists : Option ℚ
  saves : Option ℚ
  shots : Option ℚ
  score : Option ℚ
  shooting_percentage : Option ℚ
  boost_collected : Option ℚ
  boost_stolen : Option ℚ
  boost_used : Option ℚ
  avg_speed : Option ℚ
  time_supersonic : Option ℚ
  time_defensive_third : Option ℚ
  time_neutral_third : Option ℚ
  time_offensive_third : Option ℚ
deriving DecidableEq, Repr

/-- Python str.lower applied to the character sequence of a string (the
names involved are ASCII, where lowering a character agrees between the
two languages). -/
def lowerStr (s : String) : List Char := s.data.map Char.toLower

/-- Case-insensitive name test of data_collection.py line 98:
player.get("name", "").lower() == player_name.lower(). -/
def nameMatches (entryName : Option String) (player_name : String) : Bool :=
  lowerStr (entryName.getD "") == lowerStr player_name

/-- Scan of one team roster for the first matching entry. -/
def findInTeam (team : TeamData) (player_name : String) : Option RosterPlayer :=
  team.players.find? (fun p => nameMatches p.name player_name)

/-- replay_data.get("blue").get("stats").get("core").get("goals", 0). -/
def blueGoals (rd : ReplayData) : ℚ := rd.blue.core_goals.getD 0

/-- replay_data.get("orange").get("stats").get("core").get("goals", 0). -/
def orangeGoals (rd : ReplayData) : ℚ := rd.orange.core_goals.getD 0

/-- The record built at data_collection.py lines 115-148 for a matched
player, given the side the player was found on and the computed outcome. -/
def buildRecord (rd : ReplayData) (team_color : String) (p : RosterPlayer)
    (w : Bool) : MatchData :=
  { replay_id := rd.id
    date := rd.date
    duration := rd.duration
    playlist := rd.playlist_name
    player_name := p.name
    team := some team_color
    won := some w
    goals := some (p.core.goals.getD 0)
    assists := some (p.core.assists.getD 0)
    saves := some (p.core.saves.getD 0)
    shots := some (p.core.shots.getD 0)
    score := some (p.core.score.getD 0)
    shooting_percentage := some (p.core.shooting_percentage.getD 0)
    boost_collected := some (p.boost.bcpm.getD 0)
    boost_stolen := some (p.boost.stolen.getD 0)
    boost_used := some (p.boost.used_while_supersonic.getD 0)
    avg_speed := some (p.movement.avg_speed.getD 0)
    time_supersonic := some (p.movement.time_supersonic_speed.getD 0)
    time_defensive_third := some (p.positioning.time_defensive_third.getD 0)
    time_neutral_third := some (p.positioning.time_neutral_third.getD 0)
    time_offensive_third := some (p.positioning.time_offensive_third.getD 0) }

/-- BallchasingAPI.get_player_stats_from_replay: scans the blue roster then
the orange roster for a case-insensitive exact name match; on a match,
decides the win by strict comparison of the two aggregate team goal counts
(the found side must be strictly ahead) and returns the flattened record;
returns nothing when neither roster contains the name. -/
def get_player_stats_from_replay (rd : ReplayData) (player_name : String) :
    Option MatchData :=
  match findInTeam rd.blue player_name with
  | some p => some (buildRecord rd "blue" p (decide (blueGoals rd > orangeGoals rd)))
  | none =>
    match findInTeam rd.orange player_name with
    | some p => some (buildRecord rd "orange" p (decide (orangeGoals rd > blueGoals rd)))
    | none => none

/-! Embedding of RocketLeagueDB (database.py).  The SQLite file becomes an
explicit `DB` value.  The schema (create_tables) puts a UNIQUE constraint on
players.player_name and on match_history.replay_id — the latter is global
across all rows, and, per SQLite semantics, never fires for NULL values.
INSERT OR IGNORE drops a conflicting row silently without raising, so the
except sqlite3.IntegrityError branch of add_match_history is never taken
for a duplicate replay_id and games_added is incremented for every record
of the batch.  AUTOINCREMENT ids become a next-id counter; last_updated
timestamps are not modelled. -/

/-- One row of the players table (timestamp column omitted). -/
structure PlayerRow where
  player_id : Nat
  player_name : String
  total_games : Nat
deriving DecidableEq, Repr

/-- One row of the match_history table: the columns written by the INSERT
of add_match_history (match_id omitted; player_name is not a column). -/
structure StoredMatch where
  player_id : Nat
  replay_id : Option String
  date : Option String
  duration : Option ℚ
  playlist : Option String
  team : Option String
  won : Option Bool
  goals : Option ℚ
  assists : Option ℚ
  saves : Option ℚ
  shots : Option ℚ
  score : Option ℚ
  shooting_percentage : Option ℚ
  boost_collected : Option ℚ
  boost_stolen : Option ℚ
  boost_used : Option ℚ
  avg_speed : Option ℚ
  time_supersonic : Option ℚ
  time_defensive_third : Option ℚ
  time_neutral_third : Option ℚ
  time_offensive_third : Option ℚ
deriving DecidableEq, Repr

/-- The tuple bound to the INSERT placeholders at database.py lines 128-150:
each value is match.get(key) on the incoming dict. -/
def toStored (pid : Nat) (m : MatchData) : StoredMatch :=
  { player_id := pid
    replay_id := m.replay_id
    date := m.date
    duration := m.duration
    playlist := m.playlist
    team := m.team
    won := m.won
    goals := m.goals
    assists := m.assists
    saves := m.saves
    shots := m.shots
    score := m.score
    shooting_percentage := m.shooting_percentage
    boost_collected := m.boost_collected
    boost_stolen := m.boost_stolen
    boost_used := m.boost_used
    avg_speed := m.avg_speed
    time_supersonic := m.time_supersonic
    time_defensive_third := m.time_defensive_third
    time_neutral_third := m.time_neutral_third
    time_offensive_third := m.time_offensive_third }

/-- State of the SQLite database. -/
structure DB where
  players : List PlayerRow
  next_player_id : Nat
  match_history : List StoredMatch
deriving DecidableEq, Repr

/-- Database with both tables empty, as produced by create_tables. -/
def emptyDB : DB := { players := [], next_player_id := 1, match_history := [] }

/-- RocketLeagueDB.add_player: INSERT OR IGNORE into players (player_name
UNIQUE) and then SELECT the player_id for the name.  Returns the id and the
possibly extended table. -/
def add_player (db : DB) (player_name : String) : Nat × DB :=
  match db.players.find? (fun p => p.player_name == player_name) with
  | some p => (p.player_id, db)
  | none =>
    (db.next_player_id,
      { db with
        players := db.players ++ [⟨db.next_player_id, player_name, 0⟩]
        next_player_id := db.next_player_id + 1 })

/-- Whether some match_history row already carries this (non-null)
replay_id — the condition under which the UNIQUE constraint makes
INSERT OR IGNORE drop a new row. -/
def replayTaken (db : DB) (r : String) : Bool :=
  db.match_history.any (fun row => row.replay_id == some r)

/-- One INSERT OR IGNORE INTO match_history: the row is dropped exactly
when its replay_id is non-null and equal to the replay_id of an existing
row (SQLite UNIQUE ignores NULLs, so a row with a null replay_id is always
inserted). -/
def insertMatch (db : DB) (pid : Nat) (m : MatchData) : DB :=
  match m.replay_id with
  | some r =>
    if replayTaken db r then db
    else { db with match_history := db.match_history ++ [toStored pid m] }
  | none => { db with match_history := db.match_history ++ [toStored pid m] }

/-- SELECT COUNT(*) FROM match_history WHERE player_id = pid. -/
def countRowsFor (db : DB) (pid : Nat) : Nat :=
  db.match_history.countP (fun row => row.player_id == pid)

/-- Effect of the UPDATE on one players row: rows of the given player_id
get the recomputed count, others are untouched. -/
def updP (pid t : Nat) (p : PlayerRow) : PlayerRow :=
  if p.player_id == pid then { p with total_games := t } else p

/-- The UPDATE at database.py lines 157-162: recompute total_games for the
player from the row count. -/
def updateTotalGames (db : DB) (pid : Nat) : DB :=
  { db with players := db.players.map (updP pid (countRowsFor db pid)) }

/-- RocketLeagueDB.add_match_history: get-or-create the player, run one
INSERT OR IGNORE per record — incrementing games_added after every execute,
since OR IGNORE swallows the UNIQUE conflict instead of raising the
IntegrityError the except branch would catch — then recompute the stored
total_games.  Returns the games_added counter the function prints and the
new state. -/
def add_match_history (db : DB) (player_name : String)
    (match_data : List MatchData) : Nat × DB :=
  let pd := add_player db player_name
  let step := match_data.foldl
    (fun acc m => (acc.1 + 1, insertMatch acc.2 pd.1 m)) (0, pd.2)
  (step.1, updateTotalGames step.2 pd.1)

/-- Stored total_games of a named player, read back from the players
table. -/
def totalGamesOf (db : DB) (player_name : String) : Option Nat :=
  (db.players.find? (fun p => p.player_name == player_name)).map (·.total_games)

/-- The match rows of one player, as get_player_stats selects them (order
by date ignored; row multiset is what the claims speak about). -/
def rowsFor (db : DB) (pid : Nat) : List StoredMatch :=
  db.match_history.filter (fun row => row.player_id == pid)

/-! Concrete inputs used by the witness theorems. -/

/-- A sample dataset row: a won game on an early date. -/
def rowA : Row :=
  { date := "2024-01-01", playlist := none, won := true, goals := 1,
    assists := 0, saves := 0, shots := 2, score := 100,
    shooting_percentage := 50 }

/-- A sample dataset row: a lost game on a later date. -/
def rowB : Row :=
  { date := "2024-01-02", playlist := some "Ranked Doubles 2v2", won := false,
    goals := 3, assists := 1, saves := 2, shots := 4, score := 200,
    shooting_percentage := 75 }

/-! Theorems for the claims. -/

/-- C4.  For every non-empty dataset, get_summary_stats returns a populated
summary whose wins and losses add up to total_games, which is the number of
rows of the dataset. -/
theorem summary_wins_add_losses (df : List Row) (h : df ≠ []) :
    ∃ s, get_summary_stats df = some s ∧
      s.wins + s.losses = s.total_games ∧ s.total_games = df.length := by
  have hl : ¬ df.length = 0 := by simpa using h
  rw [get_summary_stats, if_neg hl]
  exact ⟨_, rfl,
    by simpa using (List.length_eq_countP_add_countP (fun r : Row => r.won) df).symm,
    rfl⟩

/-- Witness for C4 at a concrete two-row dataset. -/
theorem summary_wins_add_losses_witness :
    ∃ s, get_summary_stats [rowA, rowB] = some s ∧
      s.wins + s.losses = s.total_games ∧ s.total_games = [rowA, rowB].length :=
  summary_wins_add_losses [rowA, rowB] (by decide)

/-- Supporting fact: sortByDate produces a list ordered ascending by the
date column. -/
theorem sortByDate_sorted (df : List Row) : List.Sorted dateLe (sortByDate df) :=
  List.sorted_insertionSort dateLe df

/-- Supporting fact: sortByDate permutes the dataset, so its length-lastN
tail is a choice of lastN latest-by-date rows and its first firstN elements
a choice of firstN earliest-by-date rows. -/
theorem sortByDate_perm (df : List Row) : List.Perm (sortByDate df) df :=
  List.perm_insertionSort dateLe df

/-- C5.  compare_performance returns the empty dict exactly when the
dataset has fewer than first_n + last_n rows; any returned comparison has
goals_change equal to the mean goals of the last_n latest-by-date rows
minus the mean goals of the first_n earliest-by-date rows. -/
theorem compare_performance_spec (df : List Row) (first_n last_n : Nat) :
    (compare_performance df first_n last_n = none ↔
       df.length < first_n + last_n) ∧
    ∀ res, compare_performance df first_n last_n = some res →
      res.goals_change =
        mean ((tailN (sortByDate df) last_n).map (·.goals)) -
          mean (((sortByDate df).take first_n).map (·.goals)) := by
  constructor
  · unfold compare_performance
    split
    · next h => simp [h]
    · next h => simp [h]
  · intro res hres
    unfold compare_performance at hres
    split at hres
    · exact absurd hres (by simp)
    · cases hres
      rfl

/-- The comparison compare_performance produces on the concrete dataset
[rowB, rowA] with windows of one row each. -/
def crW : CompareResult :=
  { early := { win_rate := 100, avg_goals := 1, avg_assists := 0,
               avg_saves := 0, avg_score := 100 }
    recent := { win_rate := 0, avg_goals := 3, avg_assists := 1,
                avg_saves := 2, avg_score := 200 }
    win_rate_change := -100
    goals_change := 2
    assists_change := 1
    saves_change := 2
    score_change := 100 }

/-- Witness for C5: the concrete two-row dataset yields crW, whose
goals_change matches the window-mean difference. -/
theorem compare_performance_spec_witness :
    crW.goals_change =
      mean ((tailN (sortByDate [rowB, rowA]) 1).map (·.goals)) -
        mean (((sortByDate [rowB, rowA]).take 1).map (·.goals)) :=
  (compare_performance_spec [rowB, rowA] 1 1).2 crW (by
    simp [compare_performance, crW, sortByDate, List.insertionSort,
      List.orderedInsert, dateLe, strLtB, rowA, rowB, tailN, calc_stats, mean]
    norm_num)

/-- C8 counterexample: on the empty dataset, compare_performance with zero
window sizes returns a populated dict (of two empty-window summaries), not
the empty dict. -/
theorem compare_performance_empty_zero_windows :
    compare_performance [] 0 0 ≠ none := by decide

/-- C8 as amended: on the empty dataset every analytics operation returns
the empty result, with compare_performance doing so for every window pair
of positive combined size. -/
theorem analytics_empty_dataset (n first_n last_n : Nat)
    (h : 0 < first_n + last_n) :
    get_summary_stats [] = none ∧
    get_stats_by_playlist [] = [] ∧
    get_performance_trend [] = [] ∧
    get_recent_form [] n = none ∧
    compare_performance [] first_n last_n = none ∧
    get_strengths_and_weaknesses [] = none := by
  refine ⟨rfl, rfl, rfl, rfl, ?_, rfl⟩
  unfold compare_performance
  rw [if_pos]
  simpa using h

/-- Witness for C8 as amended, at the default window sizes. -/
theorem analytics_empty_dataset_witness :
    get_summary_stats [] = none ∧
    get_stats_by_playlist [] = [] ∧
    get_performance_trend [] = [] ∧
    get_recent_form [] 10 = none ∧
    compare_performance [] 10 10 = none ∧
    get_strengths_and_weaknesses [] = none :=
  analytics_empty_dataset 10 10 10 (by decide)

/-- Membership in the strength contribution of one classification step. -/
theorem classify_fst_mem (v hi lo : ℚ) (label x : String) :
    x ∈ (classify v hi lo label).1 ↔ x = label ∧ v > hi := by
  unfold classify
  split_ifs <;> simp_all

/-- Membership in the weakness contribution of one classification step:
the < test is only reached when the > test failed. -/
theorem classify_snd_mem (v hi lo : ℚ) (label x : String) :
    x ∈ (classify v hi lo label).2 ↔ x = label ∧ ¬ v > hi ∧ v < lo := by
  unfold classify
  split_ifs <;> simp_all

/-- The strength contribution of a step is empty exactly when the strict >
test fails. -/
theorem classify_fst_nil (v hi lo : ℚ) (label : String) :
    (classify v hi lo label).1 = [] ↔ ¬ v > hi := by
  unfold classify
  split_ifs <;> simp_all

/-- The weakness contribution of a step is empty exactly when the step did
not fall through to a passing strict < test. -/
theorem classify_snd_nil (v hi lo : ℚ) (label : String) :
    (classify v hi lo label).2 = [] ↔ (v > hi ∨ ¬ v < lo) := by
  unfold classify
  split_ifs <;> simp_all

/-- Membership in the accumulated strengths list. -/
theorem mem_rawStrengths (g a s sp : ℚ) (x : String) :
    x ∈ rawStrengths g a s sp ↔
      (x = "Goal scoring" ∧ g > 3/2) ∨ (x = "Playmaking" ∧ a > 6/5) ∨
      (x = "Defense" ∧ s > 3/2) ∨ (x = "Shot accuracy" ∧ sp > 40) := by
  simp [rawStrengths, classify_fst_mem]

/-- Membership in the accumulated weaknesses list. -/
theorem mem_rawWeaknesses (g a s sp : ℚ) (x : String) :
    x ∈ rawWeaknesses g a s sp ↔
      (x = "Goal scoring" ∧ ¬ g > 3/2 ∧ g < 4/5) ∨
      (x = "Playmaking" ∧ ¬ a > 6/5 ∧ a < 3/5) ∨
      (x = "Defense" ∧ ¬ s > 3/2 ∧ s < 4/5) ∨
      (x = "Shot accuracy" ∧ ¬ sp > 40 ∧ sp < 25) := by
  simp [rawWeaknesses, classify_snd_mem]

/-- The accumulated strengths list is empty exactly when every strict >
test fails. -/
theorem rawStrengths_nil (g a s sp : ℚ) :
    rawStrengths g a s sp = [] ↔
      ¬ g > 3/2 ∧ ¬ a > 6/5 ∧ ¬ s > 3/2 ∧ ¬ sp > 40 := by
  simp [rawStrengths, classify_fst_nil]

/-- The accumulated weaknesses list is empty exactly when no step fell
through to a passing strict < test. -/
theorem rawWeaknesses_nil (g a s sp : ℚ) :
    rawWeaknesses g a s sp = [] ↔
      (g > 3/2 ∨ ¬ g < 4/5) ∧ (a > 6/5 ∨ ¬ a < 3/5) ∧
      (s > 3/2 ∨ ¬ s < 4/5) ∧ (sp > 40 ∨ ¬ sp < 25) := by
  simp [rawWeaknesses, classify_snd_nil]

/-- C10.  The classification thresholds are strict: a metric whose mean
sits exactly on a threshold contributes neither a strength nor a weakness,
and when no metric passes a strength (resp. weakness) test the strengths
(resp. weaknesses) list is exactly the single default entry. -/
theorem strengths_weaknesses_thresholds (df : List Row) (r : SWResult)
    (h : get_strengths_and_weaknesses df = some r) :
    ((r.m_goals = 3/2 ∨ r.m_goals = 4/5) →
       "Goal scoring" ∉ r.strengths ∧ "Goal scoring" ∉ r.weaknesses) ∧
    ((r.m_assists = 6/5 ∨ r.m_assists = 3/5) →
       "Playmaking" ∉ r.strengths ∧ "Playmaking" ∉ r.weaknesses) ∧
    ((r.m_saves = 3/2 ∨ r.m_saves = 4/5) →
       "Defense" ∉ r.strengths ∧ "Defense" ∉ r.weaknesses) ∧
    ((r.m_shooting_pct = 40 ∨ r.m_shooting_pct = 25) →
       "Shot accuracy" ∉ r.strengths ∧ "Shot accuracy" ∉ r.weaknesses) ∧
    ((¬ r.m_goals > 3/2 ∧ ¬ r.m_assists > 6/5 ∧ ¬ r.m_saves > 3/2 ∧
        ¬ r.m_shooting_pct > 40) →
       r.strengths = ["Consistent all-around player"]) ∧
    ((¬ r.m_goals < 4/5 ∧ ¬ r.m_assists < 3/5 ∧ ¬ r.m_saves < 4/5 ∧
        ¬ r.m_shooting_pct < 25) →
       r.weaknesses = ["Well-rounded performance"]) := by
  simp only [get_strengths_and_weaknesses] at h
  split at h
  · exact absurd h (by simp)
  · have hr := Option.some.inj h
    subst hr
    simp only []
    refine ⟨?_, ?_, ?_, ?_, ?_, ?_⟩
    · intro hg
      have h1 : ¬ mean (df.map (·.goals)) > 3/2 := by
        rcases hg with h' | h' <;> rw [h'] <;> norm_num
      have h2 : ¬ mean (df.map (·.goals)) < 4/5 := by
        rcases hg with h' | h' <;> rw [h'] <;> norm_num
      constructor
      · by_cases hnil : rawStrengths (mean (df.map (·.goals)))
            (mean (df.map (·.assists))) (mean (df.map (·.saves)))
            (mean (df.map (·.shooting_percentage))) = []
        · rw [if_pos hnil]; simp
        · rw [if_neg hnil]; simp [mem_rawStrengths, h1]
      · by_cases hnil : rawWeaknesses (mean (df.map (·.goals)))
            (mean (df.map (·.assists))) (mean (df.map (·.saves)))
            (mean (df.map (·.shooting_percentage))) = []
        · rw [if_pos hnil]; simp
        · rw [if_neg hnil]; simp [mem_rawWeaknesses, h2]
    · intro hg
      have h1 : ¬ mean (df.map (·.assists)) > 6/5 := by
        rcases hg with h' | h' <;> rw [h'] <;> norm_num
      have h2 : ¬ mean (df.map (·.assists)) < 3/5 := by
        rcases hg with h' | h' <;> rw [h'] <;> norm_num
      constructor
      · by_cases hnil : rawStrengths (mean (df.map (·.goals)))
            (mean (df.map (·.assists))) (mean (df.map (·.saves)))
            (mean (df.map (·.shooting_percentage))) = []
        · rw [if_pos hnil]; simp
        · rw [if_neg hnil]; simp [mem_rawStrengths, h1]
      · by_cases hnil : rawWeaknesses (mean (df.map (·.goals)))
            (mean (df.map (·.assists))) (mean (df.map (·.saves)))
            (mean (df.map (·.shooting_percentage))) = []
        · rw [if_pos hnil]; simp
        · rw [if_neg hnil]; simp [mem_rawWeaknesses, h2]
    · intro hg
      have h1 : ¬ mean (df.map (·.saves)) > 3/2 := by
        rcases hg with h' | h' <;> rw [h'] <;> norm_num
      have h2 : ¬ mean (df.map (·.saves)) < 4/5 := by
        rcases hg with h' | h' <;> rw [h'] <;> norm_num
      constructor
      · by_cases hnil : rawStrengths (mean (df.map (·.goals)))
            (mean (df.map (·.assists))) (mean (df.map (·.saves)))
            (mean (df.map (·.shooting_percentage))) = []
        · rw [if_pos hnil]; simp
        · rw [if_neg hnil]; simp [mem_rawStrengths, h1]
      · by_cases hnil : rawWeaknesses (mean (df.map (·.goals)))
            (mean (df.map (·.assists))) (mean (df.map (·.saves)))
            (mean (df.map (·.shooting_percentage))) = []
        · rw [if_pos hnil]; simp
        · rw [if_neg hnil]; simp [mem_rawWeaknesses, h2]
    · intro hg
      have h1 : ¬ mean (df.map (·.shooting_percentage)) > 40 := by
        rcases hg with h' | h' <;> rw [h'] <;> norm_num
      have h2 : ¬ mean (df.map (·.shooting_percentage)) < 25 := by
        rcases hg with h' | h' <;> rw [h'] <;> norm_num
      constructor
      · by_cases hnil : rawStrengths (mean (df.map (·.goals)))
            (mean (df.map (·.assists))) (mean (df.map (·.saves)))
            (mean (df.map (·.shooting_percentage))) = []
        · rw [if_pos hnil]; simp
        · rw [if_neg hnil]; simp [mem_rawStrengths, h1]
      · by_cases hnil : rawWeaknesses (mean (df.map (·.goals)))
            (mean (df.map (·.assists))) (mean (df.map (·.saves)))
            (mean (df.map (·.shooting_percentage))) = []
        · rw [if_pos hnil]; simp
        · rw [if_neg hnil]; simp [mem_rawWeaknesses, h2]
    · intro hs
      rw [if_pos ((rawStrengths_nil _ _ _ _).mpr
        ⟨hs.1, hs.2.1, hs.2.2.1, hs.2.2.2⟩)]
    · intro hw
      rw [if_pos ((rawWeaknesses_nil _ _ _ _).mpr
        ⟨Or.inr hw.1, Or.inr hw.2.1, Or.inr hw.2.2.1, Or.inr hw.2.2.2⟩)]

/-- A dataset row whose metrics sit exactly on the upper thresholds. -/
def rowT : Row :=
  { date := "2024-01-03", playlist := none, won := true, goals := 3/2,
    assists := 6/5, saves := 3/2, shots := 1, score := 1,
    shooting_percentage := 40 }

/-- The classification get_strengths_and_weaknesses produces on the
one-row dataset [rowT]. -/
def swW : SWResult :=
  { strengths := ["Consistent all-around player"]
    weaknesses := ["Well-rounded performance"]
    m_goals := 3/2
    m_assists := 6/5
    m_saves := 3/2
    m_shooting_pct := 40 }

/-- Witness for C10 at a one-row dataset whose means hit every upper
threshold exactly: every metric is unclassified and both lists are the
defaults. -/
theorem strengths_weaknesses_thresholds_witness :
    ((swW.m_goals = 3/2 ∨ swW.m_goals = 4/5) →
       "Goal scoring" ∉ swW.strengths ∧ "Goal scoring" ∉ swW.weaknesses) ∧
    ((swW.m_assists = 6/5 ∨ swW.m_assists = 3/5) →
       "Playmaking" ∉ swW.strengths ∧ "Playmaking" ∉ swW.weaknesses) ∧
    ((swW.m_saves = 3/2 ∨ swW.m_saves = 4/5) →
       "Defense" ∉ swW.strengths ∧ "Defense" ∉ swW.weaknesses) ∧
    ((swW.m_shooting_pct = 40 ∨ swW.m_shooting_pct = 25) →
       "Shot accuracy" ∉ swW.strengths ∧ "Shot accuracy" ∉ swW.weaknesses) ∧
    ((¬ swW.m_goals > 3/2 ∧ ¬ swW.m_assists > 6/5 ∧ ¬ swW.m_saves > 3/2 ∧
        ¬ swW.m_shooting_pct > 40) →
       swW.strengths = ["Consistent all-around player"]) ∧
    ((¬ swW.m_goals < 4/5 ∧ ¬ swW.m_assists < 3/5 ∧ ¬ swW.m_saves < 4/5 ∧
        ¬ swW.m_shooting_pct < 25) →
       swW.weaknesses = ["Well-rounded performance"]) :=
  strengths_weaknesses_thresholds [rowT] swW (by
    simp [get_strengths_and_weaknesses, swW, rowT, mean, rawStrengths,
      rawWeaknesses, classify]
    norm_num)

/-- Supporting fact: any record the extractor returns was built from a
roster entry whose name matched the lookup name case-insensitively. -/
theorem extract_matched (rd : ReplayData) (lookup : String) (m : MatchData)
    (h : get_player_stats_from_replay rd lookup = some m) :
    nameMatches m.player_name lookup = true := by
  unfold get_player_stats_from_replay at h
  split at h
  · rename_i p hp
    have hp2 : rd.blue.players.find? (fun q => nameMatches q.name lookup)
        = some p := hp
    have hm := Option.some.inj h
    subst hm
    show nameMatches p.name lookup = true
    exact @List.find?_some _ (fun q => nameMatches q.name lookup) p
      rd.blue.players hp2
  · rename_i hp
    split at h
    · rename_i q hq
      have hq2 : rd.orange.players.find? (fun x => nameMatches x.name lookup)
          = some q := hq
      have hm := Option.some.inj h
      subst hm
      show nameMatches q.name lookup = true
      exact @List.find?_some _ (fun x => nameMatches x.name lookup) q
        rd.orange.players hq2
    · exact absurd h (by simp)

/-- Supporting fact: when some roster entry of either team matches the
lookup name, the extractor returns a record. -/
theorem extract_isSome_of_matches (rd : ReplayData) (lookup : String)
    (h : ∃ p ∈ rd.blue.players ++ rd.orange.players,
           nameMatches p.name lookup = true) :
    (get_player_stats_from_replay rd lookup).isSome = true := by
  obtain ⟨p, hmem, hpm⟩ := h
  rw [List.mem_append] at hmem
  unfold get_player_stats_from_replay
  cases hb : findInTeam rd.blue lookup with
  | some q => simp
  | none =>
    cases ho : findInTeam rd.orange lookup with
    | some q => simp
    | none =>
      exfalso
      have hb2 : rd.blue.players.find? (fun q => nameMatches q.name lookup)
          = none := hb
      have ho2 : rd.orange.players.find? (fun q => nameMatches q.name lookup)
          = none := ho
      rcases hmem with hm | hm
      · exact absurd hpm (by simpa using List.find?_eq_none.mp hb2 p hm)
      · exact absurd hpm (by simpa using List.find?_eq_none.mp ho2 p hm)

/-- C6.  In a replay whose blue aggregate goals are 3 and orange aggregate
goals are 1, a lookup matching the blue roster extracts a record with
won == true, and a lookup matching only the orange roster extracts a
record with won == false. -/
theorem won_blue_three_orange_one (rd : ReplayData) (lookup : String)
    (hb : blueGoals rd = 3) (ho : orangeGoals rd = 1) :
    ((findInTeam rd.blue lookup).isSome = true →
       ∃ m, get_player_stats_from_replay rd lookup = some m ∧
         m.won = some true) ∧
    (findInTeam rd.blue lookup = none →
       (findInTeam rd.orange lookup).isSome = true →
       ∃ m, get_player_stats_from_replay rd lookup = some m ∧
         m.won = some false) := by
  constructor
  · intro hsome
    obtain ⟨p, hp⟩ := Option.isSome_iff_exists.mp hsome
    refine ⟨buildRecord rd "blue" p
      (decide (blueGoals rd > orangeGoals rd)), ?_, ?_⟩
    · unfold get_player_stats_from_replay
      rw [hp]
    · show some (decide (blueGoals rd > orangeGoals rd)) = some true
      rw [hb, ho, decide_eq_true (by norm_num : (3 : ℚ) > 1)]
  · intro hnone hsome
    obtain ⟨p, hp⟩ := Option.isSome_iff_exists.mp hsome
    refine ⟨buildRecord rd "orange" p
      (decide (orangeGoals rd > blueGoals rd)), ?_, ?_⟩
    · unfold get_player_stats_from_replay
      rw [hnone, hp]
    · show some (decide (orangeGoals rd > blueGoals rd)) = some false
      rw [hb, ho, decide_eq_false (by norm_num : ¬ (1 : ℚ) > 3)]

/-- C9.  When the two aggregate team goal counts are equal, any record the
extractor returns has won == false, whichever roster matched. -/
theorem tie_extracted_record_loses (rd : ReplayData) (lookup : String)
    (m : MatchData) (htie : blueGoals rd = orangeGoals rd)
    (h : get_player_stats_from_replay rd lookup = some m) :
    m.won = some false := by
  unfold get_player_stats_from_replay at h
  split at h
  · rename_i p hp
    have hm := Option.some.inj h
    subst hm
    show some (decide (blueGoals rd > orangeGoals rd)) = some false
    rw [htie, decide_eq_false (lt_irrefl _)]
  · rename_i hp
    split at h
    · rename_i q hq
      have hm := Option.some.inj h
      subst hm
      show some (decide (orangeGoals rd > blueGoals rd)) = some false
      rw [htie, decide_eq_false (lt_irrefl _)]
    · exact absurd h (by simp)

/-- C7.  A payload containing a roster player literally named "Foo" is
matched by the lookup names "foo" and "FOO"; the lookup name "Foobar"
never returns a record naming "Foo" (no prefix or substring matching). -/
theorem exact_name_match (rd : ReplayData)
    (h : ∃ p ∈ rd.blue.players ++ rd.orange.players, p.name = some "Foo") :
    (get_player_stats_from_replay rd "foo").isSome = true ∧
    (get_player_stats_from_replay rd "FOO").isSome = true ∧
    ∀ m, get_player_stats_from_replay rd "Foobar" = some m →
      m.player_name ≠ some "Foo" := by
  obtain ⟨p, hmem, hname⟩ := h
  refine ⟨extract_isSome_of_matches rd "foo" ⟨p, hmem, by rw [hname]; decide⟩,
    extract_isSome_of_matches rd "FOO" ⟨p, hmem, by rw [hname]; decide⟩, ?_⟩
  intro m hm hcontra
  have hmatch := extract_matched rd "Foobar" m hm
  rw [hcontra] at hmatch
  exact absurd hmatch (by decide)

/-- Empty core-stats sub-dictionary. -/
def emptyCore : CoreStats :=
  { goals := none, assists := none, saves := none, shots := none,
    score := none, shooting_percentage := none }

/-- Empty boost-stats sub-dictionary. -/
def emptyBoost : BoostStats :=
  { bcpm := none, stolen := none, used_while_supersonic := none }

/-- Empty movement-stats sub-dictionary. -/
def emptyMovement : MovementStats :=
  { avg_speed := none, time_supersonic_speed := none }

/-- Empty positioning-stats sub-dictionary. -/
def emptyPositioning : PositioningStats :=
  { time_defensive_third := none, time_neutral_third := none,
    time_offensive_third := none }

/-- A roster entry with the given display name and no telemetry. -/
def mkPlayer (n : String) : RosterPlayer :=
  { name := some n, core := emptyCore, boost := emptyBoost,
    movement := emptyMovement, positioning := emptyPositioning }

/-- Concrete payload: blue roster ["Foo"] with 3 aggregate goals, orange
roster ["Bar"] with 1. -/
def rdFoo : ReplayData :=
  { id := some "rep1", date := some "2024-01-01", duration := none,
    playlist_name := none,
    blue := { players := [mkPlayer "Foo"], core_goals := some 3 },
    orange := { players := [mkPlayer "Bar"], core_goals := some 1 } }

/-- Concrete payload: a 2-2 tie between the same rosters. -/
def rdTie : ReplayData :=
  { id := some "rep2", date := some "2024-01-02", duration := none,
    playlist_name := none,
    blue := { players := [mkPlayer "Foo"], core_goals := some 2 },
    orange := { players := [mkPlayer "Bar"], core_goals := some 2 } }

/-- Witness for C6 on the concrete 3-1 payload: the blue-side player is a
winner and the orange-side player a loser. -/
theorem won_blue_three_orange_one_witness :
    (∃ m, get_player_stats_from_replay rdFoo "foo" = some m ∧
       m.won = some true) ∧
    (∃ m, get_player_stats_from_replay rdFoo "bar" = some m ∧
       m.won = some false) :=
  ⟨(won_blue_three_orange_one rdFoo "foo" (by norm_num [blueGoals, rdFoo])
      (by norm_num [orangeGoals, rdFoo])).1 (by decide),
   (won_blue_three_orange_one rdFoo "bar" (by norm_num [blueGoals, rdFoo])
      (by norm_num [orangeGoals, rdFoo])).2 (by decide) (by decide)⟩

/-- Witness for C9 on the concrete 2-2 payload. -/
theorem tie_extracted_record_loses_witness :
    (buildRecord rdTie "orange" (mkPlayer "Bar")
      (decide (orangeGoals rdTie > blueGoals rdTie))).won = some false :=
  tie_extracted_record_loses rdTie "BAR" _
    (by norm_num [blueGoals, orangeGoals, rdTie]) (by rfl)

/-- Witness for C7 on the concrete payload containing "Foo". -/
theorem exact_name_match_witness :
    (get_player_stats_from_replay rdFoo "foo").isSome = true ∧
    (get_player_stats_from_replay rdFoo "FOO").isSome = true :=
  ⟨(exact_name_match rdFoo ⟨mkPlayer "Foo", by decide, rfl⟩).1,
   (exact_name_match rdFoo ⟨mkPlayer "Foo", by decide, rfl⟩).2.1⟩

/-! Support lemmas for the Match Store claims. -/

/-- updP keeps the player name. -/
theorem updP_name (pid t : Nat) (p : PlayerRow) :
    (updP pid t p).player_name = p.player_name := by
  unfold updP
  split <;> rfl

/-- updP keeps the player id. -/
theorem updP_id (pid t : Nat) (p : PlayerRow) :
    (updP pid t p).player_id = p.player_id := by
  unfold updP
  split <;> rfl

/-- Setting the same total twice is the same as setting it once. -/
theorem updP_idem (pid t : Nat) (p : PlayerRow) :
    updP pid t (updP pid t p) = updP pid t p := by
  unfold updP
  by_cases h : (p.player_id == pid) = true <;> simp [h]

/-- find? only depends on the predicate pointwise. -/
theorem find?_ext {α : Type} (p q : α → Bool) (l : List α)
    (h : ∀ a, p a = q a) : l.find? p = l.find? q := by
  induction l with
  | nil => rfl
  | cons x xs ih => rw [List.find?_cons, List.find?_cons, h x, ih]

/-- insertMatch never touches the players table. -/
theorem insertMatch_players (db : DB) (pid : Nat) (m : MatchData) :
    (insertMatch db pid m).players = db.players := by
  unfold insertMatch
  split
  · split <;> rfl
  · rfl

/-- The games_added component of the ingest fold counts every record of
the batch. -/
theorem fold_insert_fst (pid : Nat) (batch : List MatchData) (k : Nat)
    (db : DB) :
    (batch.foldl (fun acc m => (acc.1 + 1, insertMatch acc.2 pid m))
        (k, db)).1 = k + batch.length := by
  induction batch generalizing k db with
  | nil => simp
  | cons m ms ih =>
    rw [List.foldl_cons, ih (k + 1) (insertMatch db pid m)]
    simp only [List.length_cons]
    omega

/-- The state component of the ingest fold is a plain fold of
insertMatch. -/
theorem fold_insert_snd (pid : Nat) (batch : List MatchData) (k : Nat)
    (db : DB) :
    (batch.foldl (fun acc m => (acc.1 + 1, insertMatch acc.2 pid m))
        (k, db)).2 = batch.foldl (fun d m => insertMatch d pid m) db := by
  induction batch generalizing k db with
  | nil => rfl
  | cons m ms ih => exact ih (k + 1) (insertMatch db pid m)

/-- add_match_history unpacked: games_added is the batch length and the
state is the insert fold followed by the total_games UPDATE. -/
theorem add_match_history_eq (db : DB) (n : String) (batch : List MatchData) :
    add_match_history db n batch =
      (batch.length,
        updateTotalGames
          (batch.foldl (fun d m => insertMatch d (add_player db n).1 m)
            (add_player db n).2)
          (add_player db n).1) := by
  simp only [add_match_history]
  rw [fold_insert_fst, fold_insert_snd, Nat.zero_add]

/-- add_player never touches the match_history table. -/
theorem add_player_history (db : DB) (n : String) :
    ((add_player db n).2).match_history = db.match_history := by
  unfold add_player
  split <;> rfl

/-- The insert fold never touches the players table. -/
theorem fold_insert_players (pid : Nat) (batch : List MatchData) (db : DB) :
    (batch.foldl (fun d m => insertMatch d pid m) db).players = db.players := by
  induction batch generalizing db with
  | nil => rfl
  | cons m ms ih => rw [List.foldl_cons, ih, insertMatch_players]

/-- The UPDATE never touches the match_history table. -/
theorem updateTotalGames_history (db : DB) (pid : Nat) :
    (updateTotalGames db pid).match_history = db.match_history := rfl

/-- The match rows after add_match_history are those of the insert fold. -/
theorem add_match_history_history (db : DB) (n : String)
    (batch : List MatchData) :
    ((add_match_history db n batch).2).match_history =
      (batch.foldl (fun d m => insertMatch d (add_player db n).1 m)
        (add_player db n).2).match_history := by
  rw [add_match_history_eq]
  rfl

/-- A taken replay_id stays taken across one insert. -/
theorem replayTaken_insertMatch (db : DB) (pid : Nat) (m : MatchData)
    (r : String) (h : replayTaken db r = true) :
    replayTaken (insertMatch db pid m) r = true := by
  unfold insertMatch
  split
  · split
    · exact h
    · show (db.match_history ++ [toStored pid m]).any
        (fun row => row.replay_id == some r) = true
      unfold replayTaken at h
      simp [List.any_append, h]
  · show (db.match_history ++ [toStored pid m]).any
      (fun row => row.replay_id == some r) = true
    unfold replayTaken at h
    simp [List.any_append, h]

/-- After inserting a record with a non-null replay_id, that replay_id is
taken. -/
theorem replayTaken_after_insert (db : DB) (pid : Nat) (m : MatchData)
    (r : String) (hm : m.replay_id = some r) :
    replayTaken (insertMatch db pid m) r = true := by
  simp only [insertMatch, hm]
  split
  · assumption
  · show (db.match_history ++ [toStored pid m]).any
      (fun row => row.replay_id == some r) = true
    simp [List.any_append, toStored, hm]

/-- A taken replay_id stays taken across the whole insert fold. -/
theorem fold_preserves_taken (pid : Nat) (batch : List MatchData) (db : DB)
    (r : String) (h : replayTaken db r = true) :
    replayTaken (batch.foldl (fun d x => insertMatch d pid x) db) r = true := by
  induction batch generalizing db with
  | nil => exact h
  | cons x xs ih =>
    rw [List.foldl_cons]
    exact ih _ (replayTaken_insertMatch _ _ _ _ h)

/-- After the insert fold, every non-null replay_id of the batch is
taken. -/
theorem fold_insert_taken (pid : Nat) (batch : List MatchData) (db : DB) :
    ∀ m ∈ batch, ∀ r, m.replay_id = some r →
      replayTaken (batch.foldl (fun d x => insertMatch d pid x) db) r = true := by
  induction batch generalizing db with
  | nil => simp
  | cons x xs ih =>
    intro m hm r hr
    rw [List.foldl_cons]
    rcases List.mem_cons.mp hm with hm | hm
    · subst hm
      exact fold_preserves_taken pid xs _ r (replayTaken_after_insert db pid m r hr)
    · exact ih _ m hm r hr

/-- When every record of the batch has a non-null, already taken
replay_id, the insert fold is a no-op. -/
theorem fold_insert_noop (pid : Nat) (batch : List MatchData) (db : DB)
    (hall : ∀ m ∈ batch, m.replay_id.isSome = true)
    (htaken : ∀ m ∈ batch, ∀ r, m.replay_id = some r →
      replayTaken db r = true) :
    batch.foldl (fun d x => insertMatch d pid x) db = db := by
  induction batch generalizing db with
  | nil => rfl
  | cons x xs ih =>
    obtain ⟨r, hr⟩ := Option.isSome_iff_exists.mp (hall x (by simp))
    have hstep : insertMatch db pid x = db := by
      simp only [insertMatch, hr]
      rw [if_pos (htaken x (by simp) r hr)]
    rw [List.foldl_cons, hstep]
    exact ih db (fun m hm => hall m (by simp [hm]))
      (fun m hm r2 hr2 => htaken m (by simp [hm]) r2 hr2)

/-- add_player on a players table already holding the name returns the
stored id and leaves the state unchanged. -/
theorem add_player_mem (db : DB) (n : String) (p : PlayerRow)
    (hfind : db.players.find? (fun q => q.player_name == n) = some p) :
    add_player db n = (p.player_id, db) := by
  unfold add_player
  rw [hfind]

/-- After add_player the players table holds a row for the name, carrying
the returned id. -/
theorem add_player_find (db : DB) (n : String) :
    ∃ p, ((add_player db n).2).players.find? (fun q => q.player_name == n)
        = some p ∧ p.player_id = (add_player db n).1 := by
  unfold add_player
  cases hf : db.players.find? (fun q => q.player_name == n) with
  | some p => exact ⟨p, by simp [hf], rfl⟩
  | none =>
    refine ⟨⟨db.next_player_id, n, 0⟩, ?_, rfl⟩
    simp [List.find?_append, hf]

/-- countRowsFor only reads the match_history table. -/
theorem countRowsFor_congr (d1 d2 : DB) (pid : Nat)
    (h : d1.match_history = d2.match_history) :
    countRowsFor d1 pid = countRowsFor d2 pid := by
  unfold countRowsFor
  rw [h]

/-- replayTaken only reads the match_history table. -/
theorem replayTaken_congr (d1 d2 : DB) (r : String)
    (h : d1.match_history = d2.match_history) :
    replayTaken d1 r = replayTaken d2 r := by
  unfold replayTaken
  rw [h]

/-- The relation the UNIQUE(replay_id) constraint enforces between any two
match_history rows: a non-null replay_id is never repeated. -/
def uniqR (x y : StoredMatch) : Prop :=
  x.replay_id.isSome = true → x.replay_id ≠ y.replay_id

/-- Global uniqueness of non-null replay ids across the whole table — the
invariant the schema actually enforces. -/
def globalUnique (db : DB) : Prop := db.match_history.Pairwise uniqR

/-- Per-player uniqueness of non-null replay ids. -/
def perPlayerUnique (db : DB) : Prop :=
  db.match_history.Pairwise
    (fun x y => x.player_id = y.player_id → uniqR x y)

/-- One insert keeps the global-uniqueness pairwise invariant. -/
theorem pairwise_insertMatch (db : DB) (pid : Nat) (m : MatchData)
    (h : db.match_history.Pairwise uniqR) :
    (insertMatch db pid m).match_history.Pairwise uniqR := by
  unfold insertMatch
  split
  · rename_i r hr
    split
    · exact h
    · rename_i htaken
      show (db.match_history ++ [toStored pid m]).Pairwise uniqR
      rw [List.pairwise_append]
      refine ⟨h, List.pairwise_singleton _ _, ?_⟩
      intro x hx y hy
      rw [List.mem_singleton] at hy
      subst hy
      intro hxs heq
      apply htaken
      show db.match_history.any (fun row => row.replay_id == some r) = true
      refine List.any_eq_true.mpr ⟨x, hx, ?_⟩
      have hxr : x.replay_id = some r := by
        rw [heq]
        show (toStored pid m).replay_id = some r
        simpa [toStored] using hr
      simp [hxr]
  · rename_i hr
    show (db.match_history ++ [toStored pid m]).Pairwise uniqR
    rw [List.pairwise_append]
    refine ⟨h, List.pairwise_singleton _ _, ?_⟩
    intro x hx y hy
    rw [List.mem_singleton] at hy
    subst hy
    intro hxs heq
    rw [heq] at hxs
    have hnone : (toStored pid m).replay_id = none := by
      simpa [toStored] using hr
    rw [hnone] at hxs
    simp at hxs

/-- The insert fold keeps the global-uniqueness pairwise invariant. -/
theorem pairwise_fold_insert (pid : Nat) (batch : List MatchData) (db : DB)
    (h : db.match_history.Pairwise uniqR) :
    (batch.foldl (fun d m => insertMatch d pid m)
      db).match_history.Pairwise uniqR := by
  induction batch generalizing db with
  | nil => exact h
  | cons m ms ih =>
    rw [List.foldl_cons]
    exact ih _ (pairwise_insertMatch db pid m h)

/-- C1 as amended: when non-null, replay_id is unique globally across the
whole match_history table — hence in particular unique per player — and
every add_match_history call preserves this; a second ingest of an already
stored replay_id is silently skipped, even when it comes from a different
tracked player (see the counterexample). -/
theorem replay_unique_preserved (db : DB) (n : String)
    (batch : List MatchData) (h : globalUnique db) :
    globalUnique (add_match_history db n batch).2 ∧
    perPlayerUnique (add_match_history db n batch).2 := by
  have hg : globalUnique (add_match_history db n batch).2 := by
    unfold globalUnique
    rw [add_match_history_history]
    apply pairwise_fold_insert
    rw [add_player_history]
    exact h
  refine ⟨hg, ?_⟩
  unfold perPlayerUnique
  refine List.Pairwise.imp ?_ hg
  intro a b hxy hpid
  exact hxy

/-- A match dict with every key absent. -/
def mEmpty : MatchData :=
  { replay_id := none, date := none, duration := none, playlist := none,
    player_name := none, team := none, won := none, goals := none,
    assists := none, saves := none, shots := none, score := none,
    shooting_percentage := none, boost_collected := none,
    boost_stolen := none, boost_used := none, avg_speed := none,
    time_supersonic := none, time_defensive_third := none,
    time_neutral_third := none, time_offensive_third := none }

/-- A match dict carrying only the replay_id r1. -/
def mR1 : MatchData := { mEmpty with replay_id := some "r1" }

/-- Witness for C1 as amended, starting from the empty database. -/
theorem replay_unique_preserved_witness :
    globalUnique (add_match_history emptyDB "A" [mR1]).2 ∧
    perPlayerUnique (add_match_history emptyDB "A" [mR1]).2 :=
  replay_unique_preserved emptyDB "A" [mR1] List.Pairwise.nil

/-- C1 counterexample: player A ingests replay r1; the distinct tracked
player B then ingests the same replay and ends up with no stored record —
replay_id uniqueness is enforced globally, not per player, so the same
replay cannot produce one record for each tracked player. -/
theorem replay_per_player_counterexample :
    ((add_match_history (add_match_history emptyDB "A" [mR1]).2
        "B" [mR1]).2).players = [⟨1, "A", 1⟩, ⟨2, "B", 0⟩] ∧
    rowsFor (add_match_history (add_match_history emptyDB "A" [mR1]).2
        "B" [mR1]).2 2 = [] := by
  decide

/-- C2 at the failing input: re-ingesting the single already stored record
for the same player reports games_added = 1 although the table is
unchanged and nothing was newly inserted — INSERT OR IGNORE swallows the
UNIQUE conflict, so the IntegrityError branch guarding the counter is
dead. -/
theorem games_added_overcounts :
    (add_match_history (add_match_history emptyDB "A" [mR1]).2
        "A" [mR1]).1 = 1 ∧
    ((add_match_history (add_match_history emptyDB "A" [mR1]).2
        "A" [mR1]).2).match_history =
      ((add_match_history emptyDB "A" [mR1]).2).match_history := by
  decide

/-- C3 counterexample: a batch whose single record carries a null
replay_id (SQLite UNIQUE never fires on NULL) is stored again when
re-ingested: the stored total_games goes from 1 to 2, so re-ingesting an
identical batch is not idempotent for every batch. -/
theorem idempotent_null_replay_counterexample :
    totalGamesOf (add_match_history emptyDB "A" [mEmpty]).2 "A" = some 1 ∧
    totalGamesOf
        (add_match_history (add_match_history emptyDB "A" [mEmpty]).2
          "A" [mEmpty]).2 "A" = some 2 := by
  decide

/-- The state component of add_match_history, unpacked. -/
theorem amh_snd (db : DB) (n : String) (batch : List MatchData) :
    (add_match_history db n batch).2 =
      updateTotalGames
        (batch.foldl (fun d m => insertMatch d (add_player db n).1 m)
          (add_player db n).2)
        (add_player db n).1 := by
  rw [add_match_history_eq]

/-- The players table after the UPDATE. -/
theorem updateTotalGames_players (db : DB) (pid : Nat) :
    (updateTotalGames db pid).players =
      db.players.map (updP pid (countRowsFor db pid)) := rfl

/-- Core of the idempotence argument: a second add_match_history call is a
no-op on a state whose player row for the name already carries the
recomputed total and whose table already holds every replay_id of the
batch. -/
theorem amh_second_noop (db1 base : DB) (n : String)
    (batch : List MatchData) (pid t : Nat) (p1 : PlayerRow)
    (hplayers : db1.players = base.players.map (updP pid t))
    (hfindBase : base.players.find? (fun q => q.player_name == n) = some p1)
    (hp1 : p1.player_id = pid)
    (hcount : countRowsFor db1 pid = t)
    (hall : ∀ m ∈ batch, m.replay_id.isSome = true)
    (htaken : ∀ m ∈ batch, ∀ r, m.replay_id = some r →
      replayTaken db1 r = true) :
    (add_match_history db1 n batch).2 = db1 := by
  have hfind : db1.players.find? (fun q => q.player_name == n)
      = some (updP pid t p1) := by
    rw [hplayers, List.find?_map, find?_ext _ (fun q => q.player_name == n) _
      (fun a => by
        show ((updP pid t a).player_name == n) = (a.player_name == n)
        rw [updP_name]), hfindBase]
    rfl
  have hap : add_player db1 n = ((updP pid t p1).player_id, db1) :=
    add_player_mem db1 n _ hfind
  have hpid2 : (updP pid t p1).player_id = pid := by rw [updP_id, hp1]
  have hmapid : db1.players.map (updP pid t) = db1.players := by
    rw [hplayers, List.map_map]
    exact List.map_congr_left (fun a _ => updP_idem pid t a)
  rw [amh_snd, hap]
  show updateTotalGames
      (batch.foldl (fun d m => insertMatch d (updP pid t p1).player_id m) db1)
      (updP pid t p1).player_id = db1
  rw [hpid2, fold_insert_noop pid batch db1 hall htaken]
  show { db1 with
      players := db1.players.map (updP pid (countRowsFor db1 pid)) } = db1
  rw [hcount, hmapid]

/-- C3 as amended: for a batch in which every record carries a non-null
replay_id, re-ingesting the identical batch for the same player leaves the
database state — in particular the stored match rows and the stored
total_games of the player — exactly unchanged. -/
theorem add_match_history_idempotent (db : DB) (n : String)
    (batch : List MatchData)
    (hall : ∀ m ∈ batch, m.replay_id.isSome = true) :
    (add_match_history (add_match_history db n batch).2 n batch).2 =
      (add_match_history db n batch).2 := by
  obtain ⟨p1, hfindA, hp1⟩ := add_player_find db n
  refine amh_second_noop ((add_match_history db n batch).2)
    ((add_player db n).2) n batch ((add_player db n).1)
    (countRowsFor
      (batch.foldl (fun d m => insertMatch d (add_player db n).1 m)
        (add_player db n).2)
      (add_player db n).1)
    p1 ?_ hfindA hp1 ?_ hall ?_
  · rw [amh_snd, updateTotalGames_players, fold_insert_players]
  · exact countRowsFor_congr _ _ _ (add_match_history_history db n batch)
  · intro m hm r hr
    rw [replayTaken_congr ((add_match_history db n batch).2)
      (batch.foldl (fun d m => insertMatch d (add_player db n).1 m)
        (add_player db n).2) r (add_match_history_history db n batch)]
    exact fold_insert_taken (add_player db n).1 batch (add_player db n).2
      m hm r hr

/-- Witness for C3 as amended at a concrete single-record batch. -/
theorem add_match_history_idempotent_witness :
    (add_match_history (add_match_history emptyDB "A" [mR1]).2
        "A" [mR1]).2 = (add_match_history emptyDB "A" [mR1]).2 :=
  add_match_history_idempotent emptyDB "A" [mR1] (by decide)

end RLCoach
